import Mathlib

/-
Verification of the sushi-icon-promo registration/verification workflow.

The definitions below are a shallow embedding of the server code
(src/unnamed/part_000): the Prisma `Customer` table becomes a structure,
the database becomes a list of rows, and each HTTP handler becomes a pure
function from the store (plus the handler's external inputs: random draws,
transport configuration, the current time) to a response and the new store.
Machine-generated identifiers (cuids) are modelled as naturals, timestamps
as naturals.
-/

namespace SushiPromo

/-- One row of the Prisma `Customer` table.  Field names follow the schema
(migration `add_verification_and_consent_fields` and the handler code).
`hasSubscription` models the presence of the related `subscriptions` row the
confirm handler creates on full verification. -/
structure Customer where
  id : Nat
  firstName : String
  lastName : String
  country : String
  phoneNumber : String
  email : Option String := none
  birthDate : Option String := none
  city : Option String := none
  street : Option String := none
  postalCode : Option String := none
  houseNumber : Option String := none
  preferredFood : Option String := none
  feedback : Option String := none
  discountCode : String
  consentEmail : Bool := false
  consentSms : Bool := false
  consentGivenAt : Option Nat := none
  isVerified : Bool := false
  isPhoneVerified : Bool := false
  isEmailVerified : Bool := false
  phoneVerificationCode : Option String := none
  emailVerificationCode : Option String := none
  hasSubscription : Bool := false
  deriving Repr, DecidableEq

/-- The customer table, in insertion order. -/
abbrev Store := List Customer

/-- `prisma.customer.findUnique({ where: { id } })`. -/
def findById (store : Store) (id : Nat) : Option Customer :=
  store.find? (fun c => c.id == id)

/-- `prisma.customer.findUnique({ where: { phoneNumber } })`. -/
def findByPhone (store : Store) (phone : String) : Option Customer :=
  store.find? (fun c => c.phoneNumber == phone)

/-- `prisma.customer.findUnique({ where: { discountCode } })`. -/
def findByDiscountCode (store : Store) (code : String) : Option Customer :=
  store.find? (fun c => c.discountCode == code)

/-- `prisma.customer.update({ where: { id } , data })`: replace the row with
the given id by the updated row. -/
def updateById (store : Store) (id : Nat) (c' : Customer) : Store :=
  store.map (fun c => if c.id == id then c' else c)

/-- Raw JSON body of `POST /api/register`.  It carries the consent keys the
client may submit; `registrationSchema` (a `z.object`, which strips keys it
does not declare) has no consent fields, so parsing drops them. -/
structure RegistrationPayload where
  firstName : String
  lastName : String
  country : String
  phoneNumber : String
  email : Option String := none
  birthDate : Option String := none
  city : Option String := none
  street : Option String := none
  postalCode : Option String := none
  houseNumber : Option String := none
  preferredFood : Option String := none
  feedback : Option String := none
  consentEmail : Option Bool := none
  consentSms : Option Bool := none
  deriving Repr, DecidableEq

/-- Result of `registrationSchema.parse`: the declared keys only.  The
consent fields are kept as `Option Bool` to mirror the JS object the handler
reads (`data.consentEmail` / `data.consentSms`); the parse always leaves
them `none` because `registrationSchema` does not declare them. -/
structure RegistrationData where
  firstName : String
  lastName : String
  country : String
  phoneNumber : String
  email : Option String := none
  birthDate : Option String := none
  city : Option String := none
  street : Option String := none
  postalCode : Option String := none
  houseNumber : Option String := none
  preferredFood : Option String := none
  feedback : Option String := none
  consentEmail : Option Bool := none
  consentSms : Option Bool := none
  deriving Repr, DecidableEq

/-- Model of zod's built-in `z.string().email()` check.  The exact regular
expression is a zod internal; no claim depends on which strings are
well-formed emails, only on the accept/reject branch, so it is modelled as
the presence of an `@`. -/
def emailFormatOk (s : String) : Bool :=
  s.data.any (fun ch => ch == Char.ofNat 64)

/-- The declared constraints of `registrationSchema`: `min(1)` on the
names, `length(2)` on the country, `min(6).max(20)` on the phone number,
email format on the optional email. -/
def registrationSchemaOk (p : RegistrationPayload) : Bool :=
  !p.firstName.isEmpty && !p.lastName.isEmpty &&
    p.country.length == 2 &&
    decide (6 ≤ p.phoneNumber.length) && decide (p.phoneNumber.length ≤ 20) &&
    (match p.email with
     | none => true
     | some e => emailFormatOk e)

/-- `registrationSchema.parse`.  Checks the declared constraints and strips
the undeclared consent keys (sets them to `none`). -/
def parseRegistration (p : RegistrationPayload) : Option RegistrationData :=
  if registrationSchemaOk p then
    some { firstName := p.firstName, lastName := p.lastName,
           country := p.country, phoneNumber := p.phoneNumber,
           email := p.email, birthDate := p.birthDate, city := p.city,
           street := p.street, postalCode := p.postalCode,
           houseNumber := p.houseNumber, preferredFood := p.preferredFood,
           feedback := p.feedback,
           consentEmail := none, consentSms := none }
  else none

/-- Model of JS engine date parsing validity: the handler only inspects
whether `new Date(s).getTime()` is `NaN`.  Date parsing is an engine
builtin; no claim depends on which strings parse, so validity is modelled
as the string containing a digit. -/
def jsDateValid (s : String) : Bool :=
  s.any Char.isDigit

/-- The handler's birth-date rejection: `data.birthDate ? new Date(...) :
undefined` followed by an `isNaN` check.  An empty string is falsy in JS,
so it is never converted and never rejected. -/
def birthDateRejected (b : Option String) : Bool :=
  match b with
  | none => false
  | some s => if s.isEmpty then false else !(jsDateValid s)

/-! ### Discount-code generation

`Math.random()` returns a double `k / 2 ^ 53` with `0 ≤ k < 2 ^ 53`.
`x.toString(36)` for `0 < x < 1` prints `0.` followed by the base-36
digits of `x` with trailing zeros trimmed (for `x = 0` it prints just
`0`), so `.substring(2, 8)` keeps at most the first six fractional
digits — fewer when the expansion terminates early. -/

/-- Base-36 fractional digits of `r / 2 ^ 53`, most significant first,
stopping when the remainder is zero (the expansion of a dyadic rational in
base 36 is finite, so fuel 54 always suffices). -/
def base36FracDigits : Nat → Nat → List Nat
  | 0, _ => []
  | fuel + 1, r =>
    if r = 0 then []
    else (r * 36) / 2 ^ 53 :: base36FracDigits fuel ((r * 36) % 2 ^ 53)

/-- The lowercase base-36 digit characters produced by `toString(36)`. -/
def base36Char (d : Nat) : Char :=
  if d < 10 then Char.ofNat (48 + d) else Char.ofNat (97 + (d - 10))

/-- `Math.random().toString(36).substring(2, 8).toUpperCase()` where the
random double is `k / 2 ^ 53`. -/
def randomSuffix (k : Nat) : String :=
  String.mk ((((base36FracDigits 54 (k % 2 ^ 53)).take 6).map base36Char).map Char.toUpper)

/-- The candidate code built in one iteration of the generator loop. -/
def discountCandidate (k : Nat) : String :=
  "RC10-" ++ randomSuffix k

/-- The retry loop of `generateUniqueDiscountCode`: at most five draws, the
`i`-th draw using `rand i`; `none` models the thrown generation failure. -/
def genLoop (store : Store) (rand : Nat → Nat) : Nat → Nat → Option String
  | 0, _ => none
  | fuel + 1, i =>
    let code := discountCandidate (rand i)
    match findByDiscountCode store code with
    | none => some code
    | some _ => genLoop store rand fuel (i + 1)

/-- `generateUniqueDiscountCode`: five attempts, then failure. -/
def generateUniqueDiscountCode (store : Store) (rand : Nat → Nat) : Option String :=
  genLoop store rand 5 0

/-- An uppercased base-36 digit character: `0`–`9` or `A`–`Z`. -/
def isBase36Upper (ch : Char) : Bool :=
  ch.isDigit || (decide (('A' : Char) ≤ ch) && decide (ch ≤ ('Z' : Char)))

/-- The shape the generator actually guarantees: the fixed prefix followed
by at most six uppercased base-36 digit characters. -/
def isRC10Code (c : String) : Bool :=
  match c.data with
  | 'R' :: 'C' :: '1' :: '0' :: '-' :: rest =>
    decide (rest.length ≤ 6) && rest.all isBase36Upper
  | _ => false

/-! ### The register handler -/

/-- The `status` JSON field of a register response. -/
inductive RegStatus where
  | verified
  | pendingVerification
  | verificationRequired
  deriving Repr, DecidableEq

/-- The observable JSON reply of `POST /api/register`: HTTP status plus the
optional `status`, `customerId` and `discountCode` fields (a JSON key that
is never written, or written `undefined`, is `none`). -/
structure RegisterReply where
  httpStatus : Nat
  status : Option RegStatus := none
  customerId : Option Nat := none
  discountCode : Option String := none
  deriving Repr, DecidableEq

/-- The row created by `prisma.customer.create` in the register handler.
`data.consentEmail` / `data.consentSms` are read off the parsed data — the
schema stripped those keys, so `.getD false` mirrors `|| false` applied to
`undefined`. -/
def newCustomer (d : RegistrationData) (discountCode : String) (freshId : Nat) : Customer :=
  { id := freshId,
    firstName := d.firstName, lastName := d.lastName, country := d.country,
    phoneNumber := d.phoneNumber, email := d.email, birthDate := d.birthDate,
    city := d.city, street := d.street, postalCode := d.postalCode,
    houseNumber := d.houseNumber, preferredFood := d.preferredFood,
    feedback := d.feedback, discountCode := discountCode,
    consentEmail := (d.consentEmail).getD false,
    consentSms := (d.consentSms).getD false,
    isVerified := false }

/-- `POST /api/register` (sequential semantics: the existence check and
the insert see the same store).  `freshId` is the id Prisma generates for
the new row; `rand` feeds the discount-code generator.  A generation
failure is caught by the handler's generic catch and becomes a 500. -/
def register (store : Store) (freshId : Nat) (rand : Nat → Nat)
    (p : RegistrationPayload) : RegisterReply × Store :=
  match parseRegistration p with
  | none => ({ httpStatus := 400 }, store)
  | some d =>
    if birthDateRejected d.birthDate then ({ httpStatus := 400 }, store)
    else
      match findByPhone store d.phoneNumber with
      | some c =>
        if c.isVerified then
          ({ httpStatus := 200, status := some RegStatus.verified,
             discountCode := some c.discountCode }, store)
        else
          ({ httpStatus := 200, status := some RegStatus.pendingVerification,
             customerId := some c.id }, store)
      | none =>
        match generateUniqueDiscountCode store rand with
        | none => ({ httpStatus := 500 }, store)
        | some dc =>
          ({ httpStatus := 202, status := some RegStatus.verificationRequired,
             customerId := some freshId }, store ++ [newCustomer d dc freshId])

/-- The `P2002` catch branch of the register handler: after a
uniqueness-constraint violation on the insert it re-fetches by phone number
(`storeAtRefetch` is the store seen by that re-fetch) and answers 200 with
the refetched customer's id and a status derived from `isVerified`; the
JSON carries no `discountCode` key.  If the re-fetch finds nothing,
`existing?.id` is `undefined` and `existing?.isVerified` is falsy. -/
def registerRaceRecovery (storeAtRefetch : Store) (phone : String) :
    RegisterReply × Store :=
  match findByPhone storeAtRefetch phone with
  | some c =>
    ({ httpStatus := 200,
       status := some (if c.isVerified then RegStatus.verified
                       else RegStatus.pendingVerification),
       customerId := some c.id }, storeAtRefetch)
  | none =>
    ({ httpStatus := 200, status := some RegStatus.pendingVerification },
     storeAtRefetch)

/-! ### Verification: send and confirm handlers -/

/-- The `type` selector of the verification endpoints. -/
inductive Channel where
  | phone
  | email
  deriving Repr, DecidableEq

/-- Which outbound transports are configured: SMS needs the Twilio client
plus `TWILIO_MESSAGING_SERVICE_SID`; email needs the SMTP transporter plus
`SMTP_FROM`.  `sendVerificationCode` throws `SMS_NOT_CONFIGURED` /
`EMAIL_NOT_CONFIGURED` when the selected one is missing. -/
structure TransportConfig where
  smsConfigured : Bool
  emailConfigured : Bool
  deriving Repr, DecidableEq

/-- `generateVerificationCode`: `crypto.randomInt(1000, 10000).toString()`,
the random draw supplied as `r`. -/
def generateVerificationCode (r : Nat) : String :=
  Nat.repr (1000 + r % 9000)

/-- The observable reply of `POST /api/verify/send`. -/
inductive SendReply where
  | notFound
  | emailMissing
  | alreadyVerifiedAck
  | sent
  | smsNotConfigured
  | emailNotConfigured
  deriving Repr, DecidableEq

/-- HTTP status of each send reply. -/
def SendReply.httpStatus : SendReply → Nat
  | .notFound => 404
  | .emailMissing => 400
  | .alreadyVerifiedAck => 200
  | .sent => 200
  | .smsNotConfigured => 500
  | .emailNotConfigured => 500

/-- Body of the send handler once the customer row is in hand: compute the
code, branch on the channel, answer early when the channel is already
verified (or the email is missing), otherwise persist the code and attempt
dispatch — a missing transport is thrown after the update and caught as a
500.  `none` in the second component means the handler returned before its
`prisma.customer.update` call. -/
def sendCore (c : Customer) (t : Channel) (cfg : TransportConfig) (r : Nat) :
    SendReply × Option Customer :=
  let code := generateVerificationCode r
  match t with
  | Channel.phone =>
    if c.isPhoneVerified then (SendReply.alreadyVerifiedAck, none)
    else
      let c' := { c with phoneVerificationCode := some code }
      if cfg.smsConfigured then (SendReply.sent, some c')
      else (SendReply.smsNotConfigured, some c')
  | Channel.email =>
    match c.email with
    | none => (SendReply.emailMissing, none)
    | some _ =>
      if c.isEmailVerified then (SendReply.alreadyVerifiedAck, none)
      else
        let c' := { c with emailVerificationCode := some code }
        if cfg.emailConfigured then (SendReply.sent, some c')
        else (SendReply.emailNotConfigured, some c')

/-- `POST /api/verify/send`. -/
def verifySend (store : Store) (customerId : Nat) (t : Channel)
    (cfg : TransportConfig) (r : Nat) : SendReply × Store :=
  match findById store customerId with
  | none => (SendReply.notFound, store)
  | some c =>
    match sendCore c t cfg r with
    | (rep, none) => (rep, store)
    | (rep, some c') => (rep, updateById store customerId c')

/-- The observable reply of `POST /api/verify/confirm`.  `ok` carries the
fields of the success JSON: `isFullyVerified`, the conditional
`discountCode` (`undefined`, hence `none`, unless fully verified), and the
two per-channel flags. -/
inductive ConfirmReply where
  | invalidInput
  | notFound
  | alreadyVerifiedAck (isFullyVerified : Bool)
  | invalidCode
  | ok (isFullyVerified : Bool) (discountCode : Option String)
      (isPhoneVerified : Bool) (isEmailVerified : Bool)
  deriving Repr, DecidableEq

/-- HTTP status of each confirm reply. -/
def ConfirmReply.httpStatus : ConfirmReply → Nat
  | .invalidInput => 400
  | .notFound => 404
  | .alreadyVerifiedAck _ => 200
  | .invalidCode => 400
  | .ok _ _ _ _ => 200

/-- The `discountCode` field of a confirm reply (`none` when the JSON has
no such key). -/
def ConfirmReply.discountField : ConfirmReply → Option String
  | .ok _ dc _ _ => dc
  | _ => none

/-- The handler's code comparison, `!(!storedCode || storedCode !== code)`:
an absent or empty stored code never matches; otherwise exact string
equality. -/
def codeMatches (stored : Option String) (code : String) : Bool :=
  match stored with
  | none => false
  | some s => !s.isEmpty && s == code

/-- The stored verification code of the selected channel. -/
def channelCode (c : Customer) : Channel → Option String
  | Channel.phone => c.phoneVerificationCode
  | Channel.email => c.emailVerificationCode

/-- The verified flag of the selected channel. -/
def channelVerified (c : Customer) : Channel → Bool
  | Channel.phone => c.isPhoneVerified
  | Channel.email => c.isEmailVerified

/-- Body of the confirm handler once the customer row is in hand: answer
early when the channel is already verified, reject a mismatching or absent
code, otherwise set the channel's flag, clear its code, and — when both
channels are now verified — set `isVerified`, stamp `consentGivenAt` if
either consent flag is set, and create the subscription row.  `none` in
the second component means the handler returned before its update call. -/
def confirmCore (c : Customer) (t : Channel) (code : String) (now : Nat) :
    ConfirmReply × Option Customer :=
  if channelVerified c t then (ConfirmReply.alreadyVerifiedAck c.isVerified, none)
  else if codeMatches (channelCode c t) code then
    let c1 :=
      match t with
      | Channel.phone => { c with isPhoneVerified := true, phoneVerificationCode := none }
      | Channel.email => { c with isEmailVerified := true, emailVerificationCode := none }
    let phoneAfter := match t with | Channel.phone => true | Channel.email => c.isPhoneVerified
    let emailAfter := match t with | Channel.email => true | Channel.phone => c.isEmailVerified
    let c2 :=
      if phoneAfter && emailAfter then
        { c1 with isVerified := true,
                  consentGivenAt :=
                    if c.consentEmail || c.consentSms then some now else c1.consentGivenAt,
                  hasSubscription := true }
      else c1
    (ConfirmReply.ok c2.isVerified
       (if c2.isVerified then some c2.discountCode else none)
       c2.isPhoneVerified c2.isEmailVerified,
     some c2)
  else (ConfirmReply.invalidCode, none)

/-- `POST /api/verify/confirm`.  `verificationConfirmSchema` requires the
submitted code to be exactly four characters. -/
def verifyConfirm (store : Store) (customerId : Nat) (t : Channel)
    (code : String) (now : Nat) : ConfirmReply × Store :=
  if code.length ≠ 4 then (ConfirmReply.invalidInput, store)
  else
    match findById store customerId with
    | none => (ConfirmReply.notFound, store)
    | some c =>
      match confirmCore c t code now with
      | (rep, none) => (rep, store)
      | (rep, some c') => (rep, updateById store customerId c')

/-! ### Sequences of verification operations on one customer row

The two verification handlers only ever write the row they were given, so
the evolution of a single customer under any interleaving of send and
confirm requests for that customer is captured by iterating the core
functions. -/

/-- One verification request aimed at a fixed customer. -/
inductive VerifyOp where
  | send (t : Channel) (cfg : TransportConfig) (r : Nat)
  | confirm (t : Channel) (code : String) (now : Nat)
  deriving Repr

/-- Effect of one request on the customer row (unchanged when the handler
returned before updating). -/
def applyOp (c : Customer) : VerifyOp → Customer
  | VerifyOp.send t cfg r => ((sendCore c t cfg r).2).getD c
  | VerifyOp.confirm t code now => ((confirmCore c t code now).2).getD c

/-- Effect of a sequence of requests. -/
def runOps (c : Customer) : List VerifyOp → Customer
  | [] => c
  | op :: ops => runOps (applyOp c op) ops

/-- The customer row after one confirm request (unchanged when the handler
answered without updating). -/
def confirmPost (c : Customer) (t : Channel) (code : String) (now : Nat) : Customer :=
  ((confirmCore c t code now).2).getD c

/-! ### Admin login -/

/-- The hardcoded `ADMIN_CREDENTIALS` object (its literal values are
opaque data; the handler only compares them for equality). -/
structure AdminCredentials where
  email : String
  accessCode : String
  password : String
  name : String
  deriving Repr, DecidableEq

/-- The Prisma `Owner` row. -/
structure Owner where
  id : String
  email : String
  name : String
  accessCode : String
  password : String
  totpEnabled : Bool := false
  lastLogin : Option Nat := none
  deriving Repr, DecidableEq

/-- Body of `POST /api/owner/login` after zod parsing. -/
structure LoginRequest where
  email : String
  accessCode : String
  password : String
  deriving Repr, DecidableEq

/-- `ownerLoginSchema`: email format, access code 6–25 characters,
password 6–100 characters. -/
def loginRequestValid (req : LoginRequest) : Bool :=
  emailFormatOk req.email &&
    (6 ≤ req.accessCode.length && req.accessCode.length ≤ 25) &&
    (6 ≤ req.password.length && req.password.length ≤ 100)

/-- The JWT payload signed on a 2FA-free login. -/
structure AuthToken where
  ownerId : String
  ownerEmail : String
  ownerName : String
  deriving Repr, DecidableEq

/-- The observable reply of the login endpoint. -/
inductive LoginReply where
  | invalidData
  | unauthorized
  | needs2FA
  | success (token : AuthToken)
  deriving Repr, DecidableEq

/-- The bearer token carried by a login reply, if any. -/
def LoginReply.tokenField : LoginReply → Option AuthToken
  | .success tk => some tk
  | _ => none

/-- The audit record written per attempt. -/
structure OwnerLoginSession where
  ownerId : String
  isSuccessful : Bool
  loginAt : Nat
  deriving Repr, DecidableEq

/-- The row created by the handler's upserts when no owner row exists yet
(`id: "admin-001"`, credentials copied from `ADMIN_CREDENTIALS`,
`totpEnabled` defaulting to false). -/
def mkAdminOwner (adm : AdminCredentials) (lastLogin : Option Nat) : Owner :=
  { id := "admin-001", email := adm.email, name := adm.name,
    accessCode := adm.accessCode, password := adm.password,
    totpEnabled := false, lastLogin := lastLogin }

/-- `POST /api/owner/login`: parse, compare all three credentials against
`ADMIN_CREDENTIALS`; on mismatch upsert the owner row unchanged, log a
failed session, 401; on match upsert with a fresh `lastLogin`, log a
successful session, then either signal `needs2FA` (no token) when the
stored `totpEnabled` is true or sign and return a JWT. -/
def ownerLogin (adm : AdminCredentials) (stored : Option Owner)
    (req : LoginRequest) (now : Nat) :
    LoginReply × Option Owner × Option OwnerLoginSession :=
  if !loginRequestValid req then (LoginReply.invalidData, stored, none)
  else if req.email != adm.email || req.accessCode != adm.accessCode ||
      req.password != adm.password then
    let o := stored.getD (mkAdminOwner adm none)
    (LoginReply.unauthorized, some o, some { ownerId := o.id, isSuccessful := false, loginAt := now })
  else
    let o :=
      match stored with
      | some ow => { ow with lastLogin := some now }
      | none => mkAdminOwner adm (some now)
    let sess : OwnerLoginSession := { ownerId := o.id, isSuccessful := true, loginAt := now }
    if o.totpEnabled then (LoginReply.needs2FA, some o, some sess)
    else
      (LoginReply.success { ownerId := o.id, ownerEmail := o.email, ownerName := o.name },
       some o, some sess)

/-! ### Concrete fixtures used by closed theorems -/

/-- A minimal valid registration body. -/
def pA : RegistrationPayload :=
  { firstName := "A", lastName := "B", country := "US",
    phoneNumber := "+15551234567" }

/-- What `registrationSchema.parse` makes of `pA`. -/
def pAData : RegistrationData :=
  { firstName := "A", lastName := "B", country := "US",
    phoneNumber := "+15551234567" }

/-- `pA` with both consent checkboxes ticked. -/
def pConsent : RegistrationPayload :=
  { firstName := "A", lastName := "B", country := "US",
    phoneNumber := "+15551234567",
    consentEmail := some true, consentSms := some true }

/-- A row holding the discount code produced from the random draw `0`
(whose base-36 expansion is empty, so the suffix is empty). -/
def blockerEmpty : Customer :=
  { id := 1, firstName := "X", lastName := "Y", country := "US",
    phoneNumber := "+10000000001", discountCode := "RC10-" }

/-- A row holding the discount code produced from the random draw
`2 ^ 52` (the double `0.5`, printing as `0.i` in base 36). -/
def blockerI : Customer :=
  { id := 2, firstName := "X", lastName := "Y", country := "US",
    phoneNumber := "+10000000002", discountCode := "RC10-I" }

/-- A fully verified customer. -/
def verifiedCust : Customer :=
  { id := 5, firstName := "V", lastName := "W", country := "US",
    phoneNumber := "+15550000005", email := some ("v@w.co"),
    discountCode := "RC10-ZZZZZZ", isVerified := true,
    isPhoneVerified := true, isEmailVerified := true }

/-- A registration body reusing `verifiedCust`'s phone number. -/
def pB : RegistrationPayload :=
  { firstName := "C", lastName := "D", country := "US",
    phoneNumber := "+15550000005" }

/-- What `registrationSchema.parse` makes of `pB`. -/
def pBData : RegistrationData :=
  { firstName := "C", lastName := "D", country := "US",
    phoneNumber := "+15550000005" }

/-- An unverified customer with an outstanding phone code. -/
def cu4 : Customer :=
  { id := 4, firstName := "P", lastName := "Q", country := "US",
    phoneNumber := "+15550000004", email := some ("p@q.co"),
    discountCode := "RC10-AAAAAA", phoneVerificationCode := some ("1234") }

/-- No transport configured. -/
def cfgNone : TransportConfig := { smsConfigured := false, emailConfigured := false }

/-- Both transports configured. -/
def cfgAll : TransportConfig := { smsConfigured := true, emailConfigured := true }

/-- A registration without an email address. -/
def d10 : RegistrationData :=
  { firstName := "G", lastName := "H", country := "US",
    phoneNumber := "+15550000010" }

/-- A registration with an email address and the SMS consent flag set. -/
def d5 : RegistrationData :=
  { firstName := "E", lastName := "F", country := "US",
    phoneNumber := "+15550000006", email := some ("e@f.co"),
    consentSms := some true }

/-- Verify the phone (code drawn from `r = 0`), then send the email code
(drawn from `r = 1`). -/
def ops5 : List VerifyOp :=
  [VerifyOp.send Channel.phone cfgAll 0,
   VerifyOp.confirm Channel.phone ("1000") 1,
   VerifyOp.send Channel.email cfgAll 1]

/-- Concrete admin credentials for the login witness. -/
def admFix : AdminCredentials :=
  { email := "a@b.co", accessCode := "ACCESS", password := "password1",
    name := "Admin" }

/-- A login request matching `admFix` exactly. -/
def reqFix : LoginRequest :=
  { email := "a@b.co", accessCode := "ACCESS", password := "password1" }

/-- The stored owner row with TOTP enabled. -/
def ownerTotp : Owner :=
  { id := "admin-001", email := "a@b.co", name := "Admin",
    accessCode := "ACCESS", password := "password1", totpEnabled := true }

/-- The stored owner row with TOTP disabled. -/
def ownerPlain : Owner :=
  { id := "admin-001", email := "a@b.co", name := "Admin",
    accessCode := "ACCESS", password := "password1", totpEnabled := false }

/-! ### Helper lemmas -/

/-- Length of the character list produced by `Nat.toDigitsCore` in base 10,
given enough fuel: one character per decimal digit, prepended to `ds`. -/
theorem toDigitsCore_len (n : Nat) : ∀ (fuel : Nat) (ds : List Char), n < fuel →
    (Nat.toDigitsCore 10 fuel n ds).length = Nat.log 10 n + 1 + ds.length := by
  induction n using Nat.strong_induction_on with
  | _ n ih =>
    intro fuel ds hlt
    match fuel with
    | 0 => omega
    | f + 1 =>
      rw [Nat.toDigitsCore]
      by_cases h : n / 10 = 0
      · have hn : n < 10 := by omega
        have hlog : Nat.log 10 n = 0 := Nat.log_eq_zero_iff.2 (Or.inl hn)
        simp [h, hlog]
        omega
      · have hn10 : 10 ≤ n := by omega
        have hstep : n / 10 < n := Nat.div_lt_self (by omega) (by omega)
        have hrec := ih (n / 10) hstep f (Nat.digitChar (n % 10) :: ds) (by omega)
        have hdiv := Nat.log_div_base 10 n
        have hpos : 0 < Nat.log 10 n := Nat.log_pos (by omega) hn10
        rw [if_neg h, hrec]
        simp only [List.length_cons]
        omega

/-- Verification codes are always four digits long: `randomInt(1000, 10000)`
draws from 1000–9999. -/
theorem generateVerificationCode_length (r : Nat) :
    (generateVerificationCode r).length = 4 := by
  unfold generateVerificationCode
  have hm : r % 9000 < 9000 := Nat.mod_lt _ (by omega)
  have hlog : Nat.log 10 (1000 + r % 9000) = 3 :=
    Nat.log_eq_of_pow_le_of_lt_pow (by omega) (by omega)
  rw [Nat.repr, Nat.toDigits, List.length_asString,
    toDigitsCore_len _ _ _ (by omega), hlog]
  simp

/-! ### Lemmas about the handlers -/

/-- Every digit of the base-36 expansion is below 36. -/
theorem base36FracDigits_lt (fuel : Nat) : ∀ r : Nat, r < 2 ^ 53 →
    ∀ d ∈ base36FracDigits fuel r, d < 36 := by
  induction fuel with
  | zero => intro r _ d hd; simp [base36FracDigits] at hd
  | succ f ih =>
    intro r hr d hd
    rw [base36FracDigits] at hd
    by_cases h : r = 0
    · simp [h] at hd
    · rw [if_neg h] at hd
      rcases List.mem_cons.mp hd with h1 | h2
      · subst h1
        have : r * 36 < 36 * 2 ^ 53 := by omega
        exact Nat.div_lt_of_lt_mul (by omega)
      · exact ih ((r * 36) % 2 ^ 53) (Nat.mod_lt _ (by positivity)) d h2

/-- Uppercasing a base-36 digit character yields `0`-`9` or `A`-`Z`. -/
theorem base36Upper_of_lt (d : Nat) (hd : d < 36) :
    isBase36Upper (Char.toUpper (base36Char d)) = true := by
  interval_cases d <;> decide

/-- Every candidate the generator draws has the guaranteed shape. -/
theorem discountCandidate_shape (k : Nat) :
    isRC10Code (discountCandidate k) = true := by
  unfold discountCandidate randomSuffix
  have hdata : ("RC10-" ++ String.mk
      ((((base36FracDigits 54 (k % 2 ^ 53)).take 6).map base36Char).map Char.toUpper)).data =
      'R' :: 'C' :: '1' :: '0' :: '-' ::
      ((((base36FracDigits 54 (k % 2 ^ 53)).take 6).map base36Char).map Char.toUpper) := rfl
  rw [isRC10Code, hdata]
  simp only [Bool.and_eq_true, decide_eq_true_eq]
  constructor
  · simp only [List.length_map]
    exact le_trans (List.length_take_le 6 _) (le_refl 6)
  · rw [List.all_eq_true]
    intro ch hch
    simp only [List.mem_map] at hch
    obtain ⟨d, hd, rfl⟩ := hch
    obtain ⟨d0, hd0, rfl⟩ := hd
    have hlt : d0 < 36 := base36FracDigits_lt 54 (k % 2 ^ 53)
      (Nat.mod_lt _ (by positivity)) d0 (List.mem_of_mem_take hd0)
    exact base36Upper_of_lt d0 hlt

/-- A code returned by the retry loop has the guaranteed shape and is
absent from the store. -/
theorem genLoop_some (store : Store) (rand : Nat → Nat) :
    ∀ (fuel i : Nat) (c : String), genLoop store rand fuel i = some c →
      isRC10Code c = true ∧ findByDiscountCode store c = none := by
  intro fuel
  induction fuel with
  | zero => intro i c h; simp [genLoop] at h
  | succ f ih =>
    intro i c h
    rw [genLoop] at h
    by_cases hf : findByDiscountCode store (discountCandidate (rand i)) = none
    · rw [hf] at h
      cases h
      exact ⟨discountCandidate_shape (rand i), hf⟩
    · match hmatch : findByDiscountCode store (discountCandidate (rand i)) with
      | none => exact absurd hmatch hf
      | some _ =>
        rw [hmatch] at h
        exact ih (i + 1) c h

/-- When every remaining draw collides with a stored code, the retry loop
fails. -/
theorem genLoop_none (store : Store) (rand : Nat → Nat) :
    ∀ (fuel i : Nat),
      (∀ j, j < fuel → (findByDiscountCode store (discountCandidate (rand (i + j)))).isSome) →
      genLoop store rand fuel i = none := by
  intro fuel
  induction fuel with
  | zero => intro i _; rfl
  | succ f ih =>
    intro i h
    rw [genLoop]
    have h0 := h 0 (by omega)
    simp only [Nat.add_zero] at h0
    match hmatch : findByDiscountCode store (discountCandidate (rand i)) with
    | none => rw [hmatch] at h0; simp at h0
    | some _ =>
      exact ih (i + 1) (fun j hj => by
        have := h (j + 1) (by omega)
        simpa [Nat.add_assoc, Nat.add_comm 1 j] using this)

/-- A row found by id carries that id. -/
theorem findById_id (store : Store) (idn : Nat) (c : Customer)
    (h : findById store idn = some c) : c.id = idn := by
  have := List.find?_some h
  simpa using this

/-- After an update by id, the lookup returns the updated row. -/
theorem findById_update (store : Store) (idn : Nat) (c' : Customer)
    (hfound : (findById store idn).isSome) (hid : c'.id = idn) :
    findById (updateById store idn c') idn = some c' := by
  induction store with
  | nil => simp [findById] at hfound
  | cons a as ih =>
    by_cases ha : a.id = idn
    · simp [findById, updateById, List.find?, ha, hid]
    · have ha' : (a.id == idn) = false := by simp [ha]
      simp only [findById, updateById, List.map_cons, List.find?, ha', if_neg] at hfound ⊢
      rw [if_neg (by simp [ha])]
      simp only [ha', cond_false]
      exact ih (by simpa [findById, List.find?, ha'] using hfound)

/-- The confirm endpoint on a resolvable id and well-formed code reduces to
its core. -/
theorem verifyConfirm_found (store : Store) (idn : Nat) (c : Customer)
    (t : Channel) (code : String) (now : Nat)
    (hlen : code.length = 4) (hfind : findById store idn = some c) :
    verifyConfirm store idn t code now =
      match confirmCore c t code now with
      | (rep, none) => (rep, store)
      | (rep, some c') => (rep, updateById store idn c') := by
  unfold verifyConfirm
  rw [if_neg (by omega), hfind]

/-- The send endpoint on a resolvable id reduces to its core. -/
theorem verifySend_found (store : Store) (idn : Nat) (c : Customer)
    (t : Channel) (cfg : TransportConfig) (r : Nat)
    (hfind : findById store idn = some c) :
    verifySend store idn t cfg r =
      match sendCore c t cfg r with
      | (rep, none) => (rep, store)
      | (rep, some c') => (rep, updateById store idn c') := by
  unfold verifySend
  rw [hfind]

/-- Confirm on an already-verified channel: acknowledgement, no update. -/
theorem confirmCore_already (c : Customer) (t : Channel) (code : String) (now : Nat)
    (hv : channelVerified c t = true) :
    confirmCore c t code now = (ConfirmReply.alreadyVerifiedAck c.isVerified, none) := by
  unfold confirmCore
  rw [if_pos hv]

/-- Confirm with an absent or mismatching code: invalid-code, no update. -/
theorem confirmCore_invalid (c : Customer) (t : Channel) (code : String) (now : Nat)
    (hv : channelVerified c t = false) (hm : codeMatches (channelCode c t) code = false) :
    confirmCore c t code now = (ConfirmReply.invalidCode, none) := by
  unfold confirmCore
  rw [if_neg (by simp [hv]), if_neg (by simp [hm])]

/-- Confirm with a matching code on an unverified channel: the updated row
has the channel verified, its code cleared, and the same id. -/
theorem confirmCore_success (c : Customer) (t : Channel) (code : String) (now : Nat)
    (hv : channelVerified c t = false) (hm : codeMatches (channelCode c t) code = true) :
    ∃ c2, confirmCore c t code now =
        (ConfirmReply.ok c2.isVerified
          (if c2.isVerified then some c2.discountCode else none)
          c2.isPhoneVerified c2.isEmailVerified, some c2) ∧
      channelVerified c2 t = true ∧ channelCode c2 t = none ∧ c2.id = c.id := by
  unfold confirmCore
  rw [if_neg (by simp [hv]), if_pos (by simp [hm])]
  cases t with
  | phone =>
    by_cases hb : (true && c.isEmailVerified) = true
    · refine ⟨_, rfl, ?_⟩
      simp only [hb, if_pos]
      simp [channelVerified, channelCode]
    · refine ⟨_, rfl, ?_⟩
      simp only [if_neg hb]
      simp [channelVerified, channelCode]
  | email =>
    by_cases hb : (c.isPhoneVerified && true) = true
    · refine ⟨_, rfl, ?_⟩
      simp only [hb, if_pos]
      simp [channelVerified, channelCode]
    · refine ⟨_, rfl, ?_⟩
      simp only [if_neg hb]
      simp [channelVerified, channelCode]

/-- Send to an already-verified phone: acknowledgement, no update. -/
theorem sendCore_phone_already (c : Customer) (cfg : TransportConfig) (r : Nat)
    (hp : c.isPhoneVerified = true) :
    sendCore c Channel.phone cfg r = (SendReply.alreadyVerifiedAck, none) := by
  simp only [sendCore]
  rw [if_pos hp]

/-- Send to an unverified phone with SMS configured: code stored and sent. -/
theorem sendCore_phone_sent (c : Customer) (cfg : TransportConfig) (r : Nat)
    (hp : c.isPhoneVerified = false) (hs : cfg.smsConfigured = true) :
    sendCore c Channel.phone cfg r =
      (SendReply.sent,
       some { c with phoneVerificationCode := some (generateVerificationCode r) }) := by
  simp only [sendCore]
  rw [if_neg (by simp [hp]), if_pos hs]

/-- Send to an unverified phone without SMS configured: the code is stored,
then the dispatch failure is surfaced as a 500. -/
theorem sendCore_phone_noSms (c : Customer) (cfg : TransportConfig) (r : Nat)
    (hnv : c.isPhoneVerified = false) (hcfg : cfg.smsConfigured = false) :
    sendCore c Channel.phone cfg r =
      (SendReply.smsNotConfigured,
       some { c with phoneVerificationCode := some (generateVerificationCode r) }) := by
  simp only [sendCore]
  rw [if_neg (by simp [hnv]), if_neg (by simp [hcfg])]

/-- Send to the email channel of a customer without an email: 400, no
update. -/
theorem sendCore_email_missing (c : Customer) (cfg : TransportConfig) (r : Nat)
    (he : c.email = none) :
    sendCore c Channel.email cfg r = (SendReply.emailMissing, none) := by
  simp only [sendCore]
  rw [he]

/-- Send to an already-verified email: acknowledgement, no update. -/
theorem sendCore_email_already (c : Customer) (cfg : TransportConfig) (r : Nat)
    (e : String) (he : c.email = some e) (hp : c.isEmailVerified = true) :
    sendCore c Channel.email cfg r = (SendReply.alreadyVerifiedAck, none) := by
  simp only [sendCore]
  rw [he]
  rw [if_pos hp]

/-- Send to an unverified email with SMTP configured: code stored and sent. -/
theorem sendCore_email_sent (c : Customer) (cfg : TransportConfig) (r : Nat)
    (e : String) (he : c.email = some e) (hp : c.isEmailVerified = false)
    (hs : cfg.emailConfigured = true) :
    sendCore c Channel.email cfg r =
      (SendReply.sent,
       some { c with emailVerificationCode := some (generateVerificationCode r) }) := by
  simp only [sendCore]
  rw [he]
  rw [if_neg (by simp [hp]), if_pos hs]

/-- Send to an unverified email without SMTP configured: the code is stored,
then the dispatch failure is surfaced as a 500. -/
theorem sendCore_email_noSmtp (c : Customer) (cfg : TransportConfig) (r : Nat)
    (e : String) (he : c.email = some e)
    (hnv : c.isEmailVerified = false) (hcfg : cfg.emailConfigured = false) :
    sendCore c Channel.email cfg r =
      (SendReply.emailNotConfigured,
       some { c with emailVerificationCode := some (generateVerificationCode r) }) := by
  simp only [sendCore]
  rw [he]
  rw [if_neg (by simp [hnv]), if_neg (by simp [hcfg])]

/-- Successful phone confirm completing full verification. -/
theorem confirmCore_phone_full (c : Customer) (code : String) (now : Nat)
    (hp : c.isPhoneVerified = false)
    (hm : codeMatches c.phoneVerificationCode code = true)
    (he : c.isEmailVerified = true) :
    confirmCore c Channel.phone code now =
      (ConfirmReply.ok true (some c.discountCode) true true,
       some { c with isPhoneVerified := true, phoneVerificationCode := none,
                     isVerified := true,
                     consentGivenAt := if c.consentEmail || c.consentSms then some now
                                       else c.consentGivenAt,
                     hasSubscription := true }) := by
  simp only [confirmCore, channelVerified, channelCode]
  rw [if_neg (by simp [hp]), if_pos hm]
  simp [he]

/-- Successful phone confirm with the email channel still unverified. -/
theorem confirmCore_phone_partial (c : Customer) (code : String) (now : Nat)
    (hp : c.isPhoneVerified = false)
    (hm : codeMatches c.phoneVerificationCode code = true)
    (he : c.isEmailVerified = false) :
    confirmCore c Channel.phone code now =
      (ConfirmReply.ok c.isVerified
         (if c.isVerified then some c.discountCode else none) true false,
       some { c with isPhoneVerified := true, phoneVerificationCode := none }) := by
  simp only [confirmCore, channelVerified, channelCode]
  rw [if_neg (by simp [hp]), if_pos hm]
  simp [he]

/-- Successful email confirm completing full verification. -/
theorem confirmCore_email_full (c : Customer) (code : String) (now : Nat)
    (hp : c.isEmailVerified = false)
    (hm : codeMatches c.emailVerificationCode code = true)
    (he : c.isPhoneVerified = true) :
    confirmCore c Channel.email code now =
      (ConfirmReply.ok true (some c.discountCode) true true,
       some { c with isEmailVerified := true, emailVerificationCode := none,
                     isVerified := true,
                     consentGivenAt := if c.consentEmail || c.consentSms then some now
                                       else c.consentGivenAt,
                     hasSubscription := true }) := by
  simp only [confirmCore, channelVerified, channelCode]
  rw [if_neg (by simp [hp]), if_pos hm]
  simp [he]

/-- Successful email confirm with the phone channel still unverified. -/
theorem confirmCore_email_partial (c : Customer) (code : String) (now : Nat)
    (hp : c.isEmailVerified = false)
    (hm : codeMatches c.emailVerificationCode code = true)
    (he : c.isPhoneVerified = false) :
    confirmCore c Channel.email code now =
      (ConfirmReply.ok c.isVerified
         (if c.isVerified then some c.discountCode else none) false true,
       some { c with isEmailVerified := true, emailVerificationCode := none }) := by
  simp only [confirmCore, channelVerified, channelCode]
  rw [if_neg (by simp [hp]), if_pos hm]
  simp [he]

/-! ### Invariants of the verification workflow -/

/-- One send or confirm request can neither attach an email, store an email
code, nor set the email or overall verified flags of a customer with no
email on file. -/
theorem noEmail_step (c : Customer)
    (h1 : c.email = none) (h2 : c.emailVerificationCode = none)
    (h3 : c.isEmailVerified = false) (h4 : c.isVerified = false)
    (op : VerifyOp) :
    (applyOp c op).email = none ∧ (applyOp c op).emailVerificationCode = none ∧
    (applyOp c op).isEmailVerified = false ∧ (applyOp c op).isVerified = false := by
  cases op with
  | send t cfg r =>
    cases t with
    | phone =>
      by_cases hp : c.isPhoneVerified = true
      · simp [applyOp, sendCore, hp, h1, h2, h3, h4]
      · simp only [Bool.not_eq_true] at hp
        by_cases hs : cfg.smsConfigured = true <;>
          simp [applyOp, sendCore, hp, hs, h1, h2, h3, h4]
    | email =>
      simp [applyOp, sendCore, h1, h2, h3, h4]
  | confirm t code now =>
    cases t with
    | phone =>
      by_cases hp : c.isPhoneVerified = true
      · rw [applyOp, confirmCore_already c Channel.phone code now
          (by simpa [channelVerified] using hp)]
        simp [h1, h2, h3, h4]
      · simp only [Bool.not_eq_true] at hp
        by_cases hm : codeMatches c.phoneVerificationCode code = true
        · simp [applyOp, confirmCore, channelVerified, channelCode, hp, hm, h1, h2, h3, h4]
        · rw [applyOp, confirmCore_invalid c Channel.phone code now
            (by simpa [channelVerified] using hp)
            (by simpa [channelCode] using hm)]
          simp [h1, h2, h3, h4]
    | email =>
      rw [applyOp, confirmCore_invalid c Channel.email code now
        (by simpa [channelVerified] using h3)
        (by simp [channelCode, h2, codeMatches])]
      simp [h1, h2, h3, h4]

/-- The email-free invariant is preserved by every request sequence. -/
theorem noEmail_runOps (ops : List VerifyOp) : ∀ (c : Customer),
    c.email = none → c.emailVerificationCode = none →
    c.isEmailVerified = false → c.isVerified = false →
    (runOps c ops).email = none ∧ (runOps c ops).emailVerificationCode = none ∧
    (runOps c ops).isEmailVerified = false ∧ (runOps c ops).isVerified = false := by
  induction ops with
  | nil => intro c h1 h2 h3 h4; exact ⟨h1, h2, h3, h4⟩
  | cons op rest ih =>
    intro c h1 h2 h3 h4
    obtain ⟨g1, g2, g3, g4⟩ := noEmail_step c h1 h2 h3 h4 op
    exact ih (applyOp c op) g1 g2 g3 g4

/-- One request preserves: `isVerified` is the conjunction of the two
channel flags, and `consentGivenAt` is only ever set on a fully verified
row. -/
theorem inv5_step (c : Customer)
    (h1 : c.isVerified = (c.isPhoneVerified && c.isEmailVerified))
    (h2 : c.consentGivenAt = none ∨ c.isVerified = true)
    (op : VerifyOp) :
    (applyOp c op).isVerified =
      ((applyOp c op).isPhoneVerified && (applyOp c op).isEmailVerified) ∧
    ((applyOp c op).consentGivenAt = none ∨ (applyOp c op).isVerified = true) := by
  cases op with
  | send t cfg r =>
    cases t with
    | phone =>
      by_cases hp : c.isPhoneVerified = true
      · rw [applyOp, sendCore_phone_already c cfg r hp]
        exact ⟨h1, h2⟩
      · simp only [Bool.not_eq_true] at hp
        by_cases hs : cfg.smsConfigured = true
        · rw [applyOp, sendCore_phone_sent c cfg r hp hs]
          exact ⟨h1, h2⟩
        · simp only [Bool.not_eq_true] at hs
          rw [applyOp, sendCore_phone_noSms c cfg r hp hs]
          exact ⟨h1, h2⟩
    | email =>
      match he : c.email with
      | none =>
        rw [applyOp, sendCore_email_missing c cfg r he]
        exact ⟨h1, h2⟩
      | some e =>
        by_cases hp : c.isEmailVerified = true
        · rw [applyOp, sendCore_email_already c cfg r e he hp]
          exact ⟨h1, h2⟩
        · simp only [Bool.not_eq_true] at hp
          by_cases hs : cfg.emailConfigured = true
          · rw [applyOp, sendCore_email_sent c cfg r e he hp hs]
            exact ⟨h1, h2⟩
          · simp only [Bool.not_eq_true] at hs
            rw [applyOp, sendCore_email_noSmtp c cfg r e he hp hs]
            exact ⟨h1, h2⟩
  | confirm t code now =>
    by_cases hv : channelVerified c t = true
    · rw [applyOp, confirmCore_already c t code now hv]
      exact ⟨h1, h2⟩
    · simp only [Bool.not_eq_true] at hv
      by_cases hm : codeMatches (channelCode c t) code = true
      · cases t with
        | phone =>
          simp only [channelVerified] at hv
          simp only [channelCode] at hm
          by_cases he : c.isEmailVerified = true
          · rw [applyOp, confirmCore_phone_full c code now hv hm he]
            refine ⟨by simp [he], Or.inr rfl⟩
          · simp only [Bool.not_eq_true] at he
            have h4 : c.isVerified = false := by rw [h1, hv]; simp
            rw [applyOp, confirmCore_phone_partial c code now hv hm he]
            refine ⟨by simp [h4, he], ?_⟩
            rcases h2 with h2 | h2
            · exact Or.inl h2
            · rw [h4] at h2; cases h2
        | email =>
          simp only [channelVerified] at hv
          simp only [channelCode] at hm
          by_cases he : c.isPhoneVerified = true
          · rw [applyOp, confirmCore_email_full c code now hv hm he]
            refine ⟨by simp [he], Or.inr rfl⟩
          · simp only [Bool.not_eq_true] at he
            have h4 : c.isVerified = false := by rw [h1, he]; simp
            rw [applyOp, confirmCore_email_partial c code now hv hm he]
            refine ⟨by simp [h4, he], ?_⟩
            rcases h2 with h2 | h2
            · exact Or.inl h2
            · rw [h4] at h2; cases h2
      · rw [applyOp, confirmCore_invalid c t code now hv (by simpa using hm)]
        exact ⟨h1, h2⟩

/-- The verification invariant is preserved by every request sequence. -/
theorem inv5_runOps (ops : List VerifyOp) : ∀ (c : Customer),
    c.isVerified = (c.isPhoneVerified && c.isEmailVerified) →
    (c.consentGivenAt = none ∨ c.isVerified = true) →
    (runOps c ops).isVerified =
      ((runOps c ops).isPhoneVerified && (runOps c ops).isEmailVerified) ∧
    ((runOps c ops).consentGivenAt = none ∨ (runOps c ops).isVerified = true) := by
  induction ops with
  | nil => intro c h1 h2; exact ⟨h1, h2⟩
  | cons op rest ih =>
    intro c h1 h2
    obtain ⟨g1, g2⟩ := inv5_step c h1 h2 op
    exact ih (applyOp c op) g1 g2

/-! ### Claim theorems -/

/-- C1 as frozen is false: on a valid payload with an unseen phone number the
handler can answer 500 and create no row, when all five discount-code draws
collide with a stored code (here the store holds `RC10-` and every draw is
the double `0`). -/
theorem register_all_draws_collide :
    registrationSchemaOk pA = true ∧
    birthDateRejected pA.birthDate = false ∧
    findByPhone [blockerEmpty] pA.phoneNumber = none ∧
    (register [blockerEmpty] 9 (fun _ => 0) pA).1.status ≠
      some RegStatus.verificationRequired ∧
    (register [blockerEmpty] 9 (fun _ => 0) pA).1.httpStatus = 500 ∧
    (register [blockerEmpty] 9 (fun _ => 0) pA).2 = [blockerEmpty] := by decide

/-- C1 (amended): for every payload accepted by the schema, with a valid
birth date and an unseen phone number, and for which the discount-code
generator succeeds, the register handler answers 202
`verification_required` with the new customer's id, no discount code in
the response, and appends exactly one row, created with
`isVerified = false`. -/
theorem register_new_phone_creates_unverified (store : Store) (freshId : Nat) (rand : Nat → Nat)
    (p : RegistrationPayload) (d : RegistrationData) (dc : String)
    (hp : parseRegistration p = some d)
    (hbd : birthDateRejected d.birthDate = false)
    (hphone : findByPhone store d.phoneNumber = none)
    (hgen : generateUniqueDiscountCode store rand = some dc) :
    register store freshId rand p =
      ({ httpStatus := 202, status := some RegStatus.verificationRequired,
         customerId := some freshId, discountCode := none },
       store ++ [newCustomer d dc freshId]) ∧
    (newCustomer d dc freshId).isVerified = false := by
  unfold register
  rw [hp]
  simp [hbd, hphone, hgen, newCustomer]

/-- Witness for the amended C1 on the empty store. -/
theorem register_new_phone_creates_unverified_witness :
    register [] 7 (fun _ => 0) pA =
      ({ httpStatus := 202, status := some RegStatus.verificationRequired,
         customerId := some 7, discountCode := none },
       [newCustomer pAData ("RC10-") 7]) ∧
    (newCustomer pAData ("RC10-") 7).isVerified = false :=
  register_new_phone_creates_unverified [] 7 (fun _ => 0) pA pAData ("RC10-")
    (by decide) (by decide) (by decide) (by decide)

/-- C2 (amended): when the phone number is already registered, the handler
returns 200 with `verified` plus the stored discount code, or
`pending_verification` plus the customer's id, and the store is unchanged;
the P2002 race-recovery path likewise creates no row and returns the
refetched customer's id with the status derived from `isVerified`, but
carries no discount code. -/
theorem register_existing_phone_no_duplicate (store : Store) (freshId : Nat) (rand : Nat → Nat)
    (p : RegistrationPayload) (d : RegistrationData) (c : Customer)
    (hp : parseRegistration p = some d)
    (hbd : birthDateRejected d.birthDate = false)
    (hfound : findByPhone store d.phoneNumber = some c) :
    (register store freshId rand p).2 = store ∧
    (register store freshId rand p).1 =
      (if c.isVerified then
        { httpStatus := 200, status := some RegStatus.verified,
          discountCode := some c.discountCode }
       else
        { httpStatus := 200, status := some RegStatus.pendingVerification,
          customerId := some c.id }) ∧
    (∀ (s2 : Store) (phone : String),
      (registerRaceRecovery s2 phone).2 = s2 ∧
      (registerRaceRecovery s2 phone).1.discountCode = none ∧
      (registerRaceRecovery s2 phone).1.customerId =
        (findByPhone s2 phone).map Customer.id ∧
      (registerRaceRecovery s2 phone).1.status =
        some (match findByPhone s2 phone with
              | some c2 => if c2.isVerified then RegStatus.verified
                           else RegStatus.pendingVerification
              | none => RegStatus.pendingVerification)) := by
  refine ⟨?_, ?_, ?_⟩
  · unfold register
    rw [hp]
    simp [hbd, hfound]
    by_cases hv : c.isVerified <;> simp [hv]
  · unfold register
    rw [hp]
    simp [hbd, hfound]
    by_cases hv : c.isVerified <;> simp [hv]
  · intro s2 phone
    unfold registerRaceRecovery
    match h : findByPhone s2 phone with
    | some c2 => by_cases hv : c2.isVerified <;> simp [hv]
    | none => simp

/-- Witness for the amended C2 at a fully verified stored customer. -/
theorem register_existing_phone_no_duplicate_witness :
    ((register [verifiedCust] 8 (fun _ => 0) pB).2 = [verifiedCust] ∧
     (register [verifiedCust] 8 (fun _ => 0) pB).1 =
       { httpStatus := 200, status := some RegStatus.verified,
         discountCode := some ("RC10-ZZZZZZ") }) ∧
    (registerRaceRecovery [verifiedCust] ("+15550000005")).1.discountCode = none := by
  have h := register_existing_phone_no_duplicate [verifiedCust] 8 (fun _ => 0) pB pBData verifiedCust
    (by decide) (by decide) (by decide)
  refine ⟨⟨h.1, ?_⟩, (h.2.2 [verifiedCust] ("+15550000005")).2.1⟩
  rw [h.2.1]
  decide

/-- C2 as frozen is false in its race clause: on the uniqueness-violation
recovery path a fully verified existing customer yields status `verified`
without the discount code. -/
theorem race_recovery_omits_discount_code :
    verifiedCust.isVerified = true ∧
    findByPhone [verifiedCust] ("+15550000005") = some verifiedCust ∧
    (registerRaceRecovery [verifiedCust] ("+15550000005")).1.status =
      some RegStatus.verified ∧
    (registerRaceRecovery [verifiedCust] ("+15550000005")).1.discountCode = none := by
  decide

/-- C3 (amended): every code the generator returns starts with `RC10-`, is
followed by at most six uppercased base-36 characters, and is absent from
the store; when all five draws collide the generator fails. -/
theorem discount_code_generator_contract (store : Store) (rand : Nat → Nat) :
    (∀ c, generateUniqueDiscountCode store rand = some c →
        isRC10Code c = true ∧ findByDiscountCode store c = none) ∧
    ((∀ i, i < 5 → (findByDiscountCode store (discountCandidate (rand i))).isSome) →
        generateUniqueDiscountCode store rand = none) := by
  constructor
  · intro c h
    exact genLoop_some store rand 5 0 c h
  · intro h
    exact genLoop_none store rand 5 0 (fun j hj => by simpa using h j hj)

/-- Witness for the amended C3: a successful draw at random double `0.5`, and
exhaustion against a store already holding the colliding code. -/
theorem discount_code_generator_contract_witness :
    (isRC10Code ("RC10-I") = true ∧ findByDiscountCode [] ("RC10-I") = none) ∧
    generateUniqueDiscountCode [blockerI] (fun _ => 2 ^ 52) = none :=
  ⟨(discount_code_generator_contract [] (fun _ => 2 ^ 52)).1 ("RC10-I") (by decide),
   (discount_code_generator_contract [blockerI] (fun _ => 2 ^ 52)).2 (by decide)⟩

/-- C3 as frozen is false: the suffix is not always exactly six characters.
The random double `0.5` prints as `0.i` in base 36, so the generated code
is `RC10-I`, whose suffix after the five prefix characters has length
one. -/
theorem discount_code_short_suffix :
    generateUniqueDiscountCode [] (fun _ => 2 ^ 52) = some ("RC10-I") ∧
    (("RC10-I").data.drop 5).length = 1 := by decide

end SushiPromo
namespace SushiPromo

/-- C4 (amended): for an existing customer with the selected channel
unverified, a missing or mismatching code yields a 400 invalid-code reply
and leaves the store unchanged; a matching code sets the channel's
verified flag and clears its stored code, after which a second confirm
with the same code returns the 200 already-verified acknowledgement (not
invalid-code) and changes nothing further. -/
theorem confirm_code_check_and_idempotence (store : Store) (idn : Nat) (c : Customer) (t : Channel)
    (code : String) (now now2 : Nat)
    (hfind : findById store idn = some c)
    (hlen : code.length = 4)
    (hnv : channelVerified c t = false) :
    (codeMatches (channelCode c t) code = false →
      (verifyConfirm store idn t code now).1 = ConfirmReply.invalidCode ∧
      ConfirmReply.invalidCode.httpStatus = 400 ∧
      (verifyConfirm store idn t code now).2 = store) ∧
    (codeMatches (channelCode c t) code = true →
      ∃ c', findById (verifyConfirm store idn t code now).2 idn = some c' ∧
        channelVerified c' t = true ∧ channelCode c' t = none ∧
        (verifyConfirm (verifyConfirm store idn t code now).2 idn t code now2).1 =
          ConfirmReply.alreadyVerifiedAck c'.isVerified ∧
        (verifyConfirm (verifyConfirm store idn t code now).2 idn t code now2).2 =
          (verifyConfirm store idn t code now).2) := by
  constructor
  · intro hmm
    rw [verifyConfirm_found store idn c t code now hlen hfind,
      confirmCore_invalid c t code now hnv hmm]
    exact ⟨rfl, rfl, rfl⟩
  · intro hmm
    obtain ⟨c2, heq, hv2, hc2, hid2⟩ := confirmCore_success c t code now hnv hmm
    have hstep1 : (verifyConfirm store idn t code now).2 = updateById store idn c2 := by
      rw [verifyConfirm_found store idn c t code now hlen hfind, heq]
    have hfind2 : findById (updateById store idn c2) idn = some c2 :=
      findById_update store idn c2 (by rw [hfind]; rfl)
        (by rw [hid2]; exact findById_id store idn c hfind)
    refine ⟨c2, ?_, hv2, hc2, ?_, ?_⟩
    · rw [hstep1]; exact hfind2
    · rw [hstep1, verifyConfirm_found (updateById store idn c2) idn c2 t code now2 hlen hfind2,
        confirmCore_already c2 t code now2 hv2]
    · rw [hstep1, verifyConfirm_found (updateById store idn c2) idn c2 t code now2 hlen hfind2,
        confirmCore_already c2 t code now2 hv2]

/-- Witness for the amended C4 on a concrete customer, both branches. -/
theorem confirm_code_check_and_idempotence_witness :
    ((verifyConfirm [{ cu4 with phoneVerificationCode := some ("9999") }] 4
        Channel.phone ("1234") 0).1 = ConfirmReply.invalidCode ∧
      ConfirmReply.invalidCode.httpStatus = 400 ∧
      (verifyConfirm [{ cu4 with phoneVerificationCode := some ("9999") }] 4
        Channel.phone ("1234") 0).2 =
        [{ cu4 with phoneVerificationCode := some ("9999") }]) ∧
    (∃ c', findById (verifyConfirm [cu4] 4 Channel.phone ("1234") 0).2 4 = some c' ∧
      channelVerified c' Channel.phone = true ∧
      channelCode c' Channel.phone = none ∧
      (verifyConfirm (verifyConfirm [cu4] 4 Channel.phone ("1234") 0).2 4
        Channel.phone ("1234") 1).1 = ConfirmReply.alreadyVerifiedAck c'.isVerified ∧
      (verifyConfirm (verifyConfirm [cu4] 4 Channel.phone ("1234") 0).2 4
        Channel.phone ("1234") 1).2 = (verifyConfirm [cu4] 4 Channel.phone ("1234") 0).2) :=
  ⟨(confirm_code_check_and_idempotence [{ cu4 with phoneVerificationCode := some ("9999") }] 4
      { cu4 with phoneVerificationCode := some ("9999") } Channel.phone
      ("1234") 0 1 (by decide) (by decide) (by decide)).1 (by decide),
   (confirm_code_check_and_idempotence [cu4] 4 cu4 Channel.phone ("1234") 0 1
      (by decide) (by decide) (by decide)).2 (by decide)⟩

/-- C4 as frozen is false in its final clause: after a successful confirm,
re-confirming with the same (now cleared) code answers 200
already-verified, not a 4xx invalid-code failure. -/
theorem reconfirm_returns_already_verified :
    (verifyConfirm [cu4] 4 Channel.phone ("1234") 0).1 =
      ConfirmReply.ok false none true false ∧
    (verifyConfirm (verifyConfirm [cu4] 4 Channel.phone ("1234") 0).2 4
      Channel.phone ("1234") 1).1 = ConfirmReply.alreadyVerifiedAck false ∧
    (ConfirmReply.alreadyVerifiedAck false).httpStatus = 200 ∧
    (verifyConfirm (verifyConfirm [cu4] 4 Channel.phone ("1234") 0).2 4
      Channel.phone ("1234") 1).1 ≠ ConfirmReply.invalidCode := by decide

end SushiPromo
namespace SushiPromo

/-- C5: for every customer row reachable from registration by send and
confirm requests, the confirm reply carries the discount code exactly
when this call makes both channels verified; on that transition
`isVerified` is set and `consentGivenAt` is stamped with the current time
exactly when some consent flag is set and no timestamp exists yet. -/
theorem confirm_full_verification_transition (c : Customer) (t : Channel) (code : String) (now : Nat)
    (hreach : ∃ (d : RegistrationData) (dc : String) (freshId : Nat)
      (ops : List VerifyOp), c = runOps (newCustomer d dc freshId) ops) :
    ((confirmCore c t code now).1.discountField ≠ none ↔
      ((confirmPost c t code now).isPhoneVerified = true ∧
       (confirmPost c t code now).isEmailVerified = true ∧
       (c.isPhoneVerified && c.isEmailVerified) = false)) ∧
    (((confirmPost c t code now).isPhoneVerified = true ∧
      (confirmPost c t code now).isEmailVerified = true ∧
      (c.isPhoneVerified && c.isEmailVerified) = false) →
      ((confirmPost c t code now).isVerified = true ∧
       (confirmCore c t code now).1.discountField = some c.discountCode ∧
       ((confirmPost c t code now).consentGivenAt = some now ↔
         ((c.consentEmail || c.consentSms) = true ∧ c.consentGivenAt = none)))) := by
  obtain ⟨d, dc, freshId, ops, hc⟩ := hreach
  obtain ⟨h1, h2⟩ := inv5_runOps ops (newCustomer d dc freshId)
    (by simp [newCustomer]) (Or.inl (by simp [newCustomer]))
  rw [← hc] at h1 h2
  by_cases hv : channelVerified c t = true
  · have heq := confirmCore_already c t code now hv
    have hpost : confirmPost c t code now = c := by
      simp [confirmPost, heq]
    rw [hpost, heq]
    constructor
    · constructor
      · intro hne
        simp [ConfirmReply.discountField] at hne
      · rintro ⟨a, b, d0⟩
        rw [a, b] at d0
        simp at d0
    · rintro ⟨a, b, d0⟩
      rw [a, b] at d0
      simp at d0
  · simp only [Bool.not_eq_true] at hv
    by_cases hm : codeMatches (channelCode c t) code = true
    · cases t with
      | phone =>
        simp only [channelVerified] at hv
        simp only [channelCode] at hm
        have h4 : c.isVerified = false := by rw [h1, hv]; simp
        by_cases he : c.isEmailVerified = true
        · have heq := confirmCore_phone_full c code now hv hm he
          have hcg : c.consentGivenAt = none := by
            rcases h2 with h2 | h2
            · exact h2
            · rw [h4] at h2; cases h2
          have hpost : confirmPost c Channel.phone code now =
              { c with isPhoneVerified := true, phoneVerificationCode := none,
                       isVerified := true,
                       consentGivenAt := if c.consentEmail || c.consentSms then some now
                                         else c.consentGivenAt,
                       hasSubscription := true } := by
            simp [confirmPost, heq]
          rw [hpost, heq]
          refine ⟨?_, ?_⟩
          · simp [ConfirmReply.discountField, he, hv]
          · intro _
            refine ⟨rfl, rfl, ?_⟩
            by_cases hcf : (c.consentEmail || c.consentSms) = true
            · simp [hcf, hcg]
            · simp only [Bool.not_eq_true] at hcf
              simp [hcf, hcg]
        · simp only [Bool.not_eq_true] at he
          have heq := confirmCore_phone_partial c code now hv hm he
          have hpost : confirmPost c Channel.phone code now =
              { c with isPhoneVerified := true, phoneVerificationCode := none } := by
            simp [confirmPost, heq]
          rw [hpost, heq]
          constructor
          · constructor
            · intro hne
              simp [ConfirmReply.discountField, h4] at hne
            · rintro ⟨a, b, d0⟩
              simp only at b
              rw [he] at b
              cases b
          · rintro ⟨a, b, d0⟩
            simp only at b
            rw [he] at b
            cases b
      | email =>
        simp only [channelVerified] at hv
        simp only [channelCode] at hm
        have h4 : c.isVerified = false := by rw [h1, hv]; simp
        by_cases he : c.isPhoneVerified = true
        · have heq := confirmCore_email_full c code now hv hm he
          have hcg : c.consentGivenAt = none := by
            rcases h2 with h2 | h2
            · exact h2
            · rw [h4] at h2; cases h2
          have hpost : confirmPost c Channel.email code now =
              { c with isEmailVerified := true, emailVerificationCode := none,
                       isVerified := true,
                       consentGivenAt := if c.consentEmail || c.consentSms then some now
                                         else c.consentGivenAt,
                       hasSubscription := true } := by
            simp [confirmPost, heq]
          rw [hpost, heq]
          refine ⟨?_, ?_⟩
          · simp [ConfirmReply.discountField, he, hv]
          · intro _
            refine ⟨rfl, rfl, ?_⟩
            by_cases hcf : (c.consentEmail || c.consentSms) = true
            · simp [hcf, hcg]
            · simp only [Bool.not_eq_true] at hcf
              simp [hcf, hcg]
        · simp only [Bool.not_eq_true] at he
          have heq := confirmCore_email_partial c code now hv hm he
          have hpost : confirmPost c Channel.email code now =
              { c with isEmailVerified := true, emailVerificationCode := none } := by
            simp [confirmPost, heq]
          rw [hpost, heq]
          constructor
          · constructor
            · intro hne
              simp [ConfirmReply.discountField, h4] at hne
            · rintro ⟨a, b, d0⟩
              simp only at a
              rw [he] at a
              cases a
          · rintro ⟨a, b, d0⟩
            simp only at a
            rw [he] at a
            cases a
    · simp only [Bool.not_eq_true] at hm
      have heq := confirmCore_invalid c t code now hv hm
      have hpost : confirmPost c t code now = c := by
        simp [confirmPost, heq]
      rw [hpost, heq]
      constructor
      · constructor
        · intro hne
          simp [ConfirmReply.discountField] at hne
        · rintro ⟨a, b, d0⟩
          rw [a, b] at d0
          simp at d0
      · rintro ⟨a, b, d0⟩
        rw [a, b] at d0
        simp at d0

/-- Witness for C5 on a concrete reachable customer completing verification. -/
theorem confirm_full_verification_transition_witness :
    (confirmCore (runOps (newCustomer d5 ("RC10-BBBBBB") 6) ops5)
      Channel.email ("1001") 9).1.discountField = some ("RC10-BBBBBB") ∧
    (confirmPost (runOps (newCustomer d5 ("RC10-BBBBBB") 6) ops5)
      Channel.email ("1001") 9).isVerified = true ∧
    (confirmPost (runOps (newCustomer d5 ("RC10-BBBBBB") 6) ops5)
      Channel.email ("1001") 9).consentGivenAt = some 9 := by
  have h := confirm_full_verification_transition (runOps (newCustomer d5 ("RC10-BBBBBB") 6) ops5)
    Channel.email ("1001") 9 ⟨d5, ("RC10-BBBBBB"), 6, ops5, rfl⟩
  have htr := h.2 (by decide)
  refine ⟨?_, htr.1, htr.2.2.mpr ⟨by decide, by decide⟩⟩
  rw [htr.2.1]
  decide

/-- C6 is right and the code is wrong: a payload submitting both consent
flags as true is accepted, yet the created row stores
`consentEmail = false` and `consentSms = false`, because
`registrationSchema` does not declare the consent keys (zod strips them)
while the create reads `data.consentEmail` — despite the code's own
comment saying the consent fields are saved as submitted. -/
theorem register_drops_submitted_consent :
    pConsent.consentEmail = some true ∧ pConsent.consentSms = some true ∧
    registrationSchemaOk pConsent = true ∧
    (register [] 3 (fun _ => 0) pConsent).1.status =
      some RegStatus.verificationRequired ∧
    (register [] 3 (fun _ => 0) pConsent).2.map Customer.consentEmail = [false] ∧
    (register [] 3 (fun _ => 0) pConsent).2.map Customer.consentSms = [false] := by
  decide

/-- C7: confirming a channel that is already verified answers 200 with the
current overall verification state, changes nothing in the store, and is
independent of the submitted code. -/
theorem confirm_already_verified_noop (store : Store) (idn : Nat) (c : Customer) (t : Channel)
    (code : String) (now : Nat)
    (hfind : findById store idn = some c)
    (hlen : code.length = 4)
    (hv : channelVerified c t = true) :
    (verifyConfirm store idn t code now).1 = ConfirmReply.alreadyVerifiedAck c.isVerified ∧
    (ConfirmReply.alreadyVerifiedAck c.isVerified).httpStatus = 200 ∧
    (verifyConfirm store idn t code now).2 = store ∧
    (∀ (code2 : String) (now2 : Nat), code2.length = 4 →
      verifyConfirm store idn t code2 now2 = verifyConfirm store idn t code now) := by
  have hmain : ∀ (cd : String) (n : Nat), cd.length = 4 →
      verifyConfirm store idn t cd n = (ConfirmReply.alreadyVerifiedAck c.isVerified, store) := by
    intro cd n hl
    rw [verifyConfirm_found store idn c t cd n hl hfind, confirmCore_already c t cd n hv]
  refine ⟨?_, rfl, ?_, ?_⟩
  · rw [hmain code now hlen]
  · rw [hmain code now hlen]
  · intro code2 now2 hl2
    rw [hmain code2 now2 hl2, hmain code now hlen]

/-- Witness for C7 on a fully verified customer. -/
theorem confirm_already_verified_noop_witness :
    (verifyConfirm [verifiedCust] 5 Channel.phone ("0000") 0).1 =
      ConfirmReply.alreadyVerifiedAck true ∧
    (ConfirmReply.alreadyVerifiedAck true).httpStatus = 200 ∧
    (verifyConfirm [verifiedCust] 5 Channel.phone ("0000") 0).2 = [verifiedCust] ∧
    verifyConfirm [verifiedCust] 5 Channel.phone ("1234") 3 =
      verifyConfirm [verifiedCust] 5 Channel.phone ("0000") 0 :=
  have h := confirm_already_verified_noop [verifiedCust] 5 verifiedCust Channel.phone ("0000") 0
    (by decide) (by decide) (by decide)
  ⟨h.1, h.2.1, h.2.2.1, h.2.2.2 ("1234") 3 (by decide)⟩

/-- C8: with the correct admin email, access code and password, the login
handler signals `needs2FA` without a bearer token when the stored owner's
`totpEnabled` is true, and returns a signed token directly when it is
false. -/
theorem owner_login_totp_gate (adm : AdminCredentials) (o : Owner) (req : LoginRequest) (now : Nat)
    (hv : loginRequestValid req = true)
    (he : req.email = adm.email) (ha : req.accessCode = adm.accessCode)
    (hp : req.password = adm.password) :
    (o.totpEnabled = true →
      (ownerLogin adm (some o) req now).1 = LoginReply.needs2FA ∧
      ((ownerLogin adm (some o) req now).1).tokenField = none) ∧
    (o.totpEnabled = false →
      (ownerLogin adm (some o) req now).1 =
        LoginReply.success { ownerId := o.id, ownerEmail := o.email, ownerName := o.name } ∧
      ((ownerLogin adm (some o) req now).1).tokenField =
        some { ownerId := o.id, ownerEmail := o.email, ownerName := o.name }) := by
  have hmain : ownerLogin adm (some o) req now =
      (if ({ o with lastLogin := some now } : Owner).totpEnabled then
        (LoginReply.needs2FA, some { o with lastLogin := some now },
         some { ownerId := ({ o with lastLogin := some now } : Owner).id,
                isSuccessful := true, loginAt := now })
       else
        (LoginReply.success
           { ownerId := ({ o with lastLogin := some now } : Owner).id,
             ownerEmail := ({ o with lastLogin := some now } : Owner).email,
             ownerName := ({ o with lastLogin := some now } : Owner).name },
         some { o with lastLogin := some now },
         some { ownerId := ({ o with lastLogin := some now } : Owner).id,
                isSuccessful := true, loginAt := now })) := by
    unfold ownerLogin
    rw [if_neg (by simp [hv]), if_neg (by simp [he, ha, hp])]
  constructor
  · intro ht
    rw [hmain, if_pos (by simpa using ht)]
    exact ⟨rfl, rfl⟩
  · intro ht
    rw [hmain, if_neg (by simpa using ht)]
    exact ⟨rfl, rfl⟩

/-- Witness for C8 with the TOTP flag set and cleared. -/
theorem owner_login_totp_gate_witness :
    ((ownerLogin admFix (some ownerTotp) reqFix 0).1 = LoginReply.needs2FA ∧
     ((ownerLogin admFix (some ownerTotp) reqFix 0).1).tokenField = none) ∧
    ((ownerLogin admFix (some ownerPlain) reqFix 0).1 =
       LoginReply.success { ownerId := "admin-001", ownerEmail := "a@b.co",
                            ownerName := "Admin" } ∧
     ((ownerLogin admFix (some ownerPlain) reqFix 0).1).tokenField =
       some { ownerId := "admin-001", ownerEmail := "a@b.co",
              ownerName := "Admin" }) :=
  ⟨(owner_login_totp_gate admFix ownerTotp reqFix 0 (by decide) rfl rfl rfl).1 rfl,
   (owner_login_totp_gate admFix ownerPlain reqFix 0 (by decide) rfl rfl rfl).2 rfl⟩

/-- C9: when the selected channel's transport is not configured, the send
handler answers 500, yet the freshly generated four-digit code has
already been persisted into that channel's code field of the customer
row. -/
theorem send_persists_code_despite_transport_error (store : Store) (idn : Nat) (c : Customer) (t : Channel)
    (cfg : TransportConfig) (r : Nat)
    (hfind : findById store idn = some c)
    (hnv : channelVerified c t = false)
    (hmail : t = Channel.email → c.email.isSome)
    (hcfg : (match t with
             | Channel.phone => cfg.smsConfigured
             | Channel.email => cfg.emailConfigured) = false) :
    ((verifySend store idn t cfg r).1).httpStatus = 500 ∧
    (verifySend store idn t cfg r).1 =
      (match t with
       | Channel.phone => SendReply.smsNotConfigured
       | Channel.email => SendReply.emailNotConfigured) ∧
    (∃ c', findById (verifySend store idn t cfg r).2 idn = some c' ∧
      channelCode c' t = some (generateVerificationCode r) ∧
      channelVerified c' t = false ∧
      (generateVerificationCode r).length = 4) := by
  have hid : c.id = idn := findById_id store idn c hfind
  cases t with
  | phone =>
    rw [verifySend_found store idn c Channel.phone cfg r hfind,
      sendCore_phone_noSms c cfg r (by simpa [channelVerified] using hnv) hcfg]
    refine ⟨rfl, rfl, ⟨_, findById_update store idn _ (by rw [hfind]; rfl) hid, rfl, ?_,
      generateVerificationCode_length r⟩⟩
    simpa [channelVerified] using hnv
  | email =>
    obtain ⟨e, he⟩ := Option.isSome_iff_exists.mp (hmail rfl)
    rw [verifySend_found store idn c Channel.email cfg r hfind,
      sendCore_email_noSmtp c cfg r e he (by simpa [channelVerified] using hnv) hcfg]
    refine ⟨rfl, rfl, ⟨_, findById_update store idn _ (by rw [hfind]; rfl) hid, rfl, ?_,
      generateVerificationCode_length r⟩⟩
    simpa [channelVerified] using hnv

/-- Witness for C9: SMS not configured, code nevertheless stored. -/
theorem send_persists_code_despite_transport_error_witness :
    ((verifySend [cu4] 4 Channel.phone cfgNone 0).1).httpStatus = 500 ∧
    (verifySend [cu4] 4 Channel.phone cfgNone 0).1 = SendReply.smsNotConfigured ∧
    (∃ c', findById (verifySend [cu4] 4 Channel.phone cfgNone 0).2 4 = some c' ∧
      channelCode c' Channel.phone = some (generateVerificationCode 0) ∧
      channelVerified c' Channel.phone = false ∧
      (generateVerificationCode 0).length = 4) :=
  send_persists_code_despite_transport_error [cu4] 4 cu4 Channel.phone cfgNone 0 (by decide) (by decide)
    (by intro h; cases h) (by decide)

end SushiPromo
namespace SushiPromo

/-- C10: a customer registered without an email can never reach
`isEmailVerified` or `isVerified`: the email send path fails with 400
before storing anything, the email confirm path fails with invalid-code,
and both flags stay false under every sequence of send and confirm
requests. -/
theorem no_email_never_verified (d : RegistrationData) (dc : String) (freshId : Nat)
    (hd : d.email = none) (ops : List VerifyOp) :
    (runOps (newCustomer d dc freshId) ops).isEmailVerified = false ∧
    (runOps (newCustomer d dc freshId) ops).isVerified = false ∧
    (∀ (cfg : TransportConfig) (r : Nat),
      sendCore (runOps (newCustomer d dc freshId) ops) Channel.email cfg r =
        (SendReply.emailMissing, none) ∧ SendReply.emailMissing.httpStatus = 400) ∧
    (∀ (code : String) (now : Nat),
      confirmCore (runOps (newCustomer d dc freshId) ops) Channel.email code now =
        (ConfirmReply.invalidCode, none) ∧ ConfirmReply.invalidCode.httpStatus = 400) := by
  obtain ⟨g1, g2, g3, g4⟩ := noEmail_runOps ops (newCustomer d dc freshId)
    (by simp [newCustomer, hd]) (by simp [newCustomer]) (by simp [newCustomer])
    (by simp [newCustomer])
  refine ⟨g3, g4, ?_, ?_⟩
  · intro cfg r
    exact ⟨by simp [sendCore, g1], rfl⟩
  · intro code now
    exact ⟨confirmCore_invalid _ Channel.email code now
      (by simpa [channelVerified] using g3)
      (by simp [channelCode, g2, codeMatches]), rfl⟩

/-- Witness for C10 after a sequence that verifies the phone and attempts
the email paths. -/
theorem no_email_never_verified_witness :
    (runOps (newCustomer d10 ("RC10-CCCCCC") 10)
      [VerifyOp.send Channel.phone cfgAll 0,
       VerifyOp.confirm Channel.phone ("1000") 1,
       VerifyOp.send Channel.email cfgAll 2,
       VerifyOp.confirm Channel.email ("1002") 3]).isEmailVerified = false ∧
    (runOps (newCustomer d10 ("RC10-CCCCCC") 10)
      [VerifyOp.send Channel.phone cfgAll 0,
       VerifyOp.confirm Channel.phone ("1000") 1,
       VerifyOp.send Channel.email cfgAll 2,
       VerifyOp.confirm Channel.email ("1002") 3]).isVerified = false ∧
    sendCore (runOps (newCustomer d10 ("RC10-CCCCCC") 10)
      [VerifyOp.send Channel.phone cfgAll 0,
       VerifyOp.confirm Channel.phone ("1000") 1,
       VerifyOp.send Channel.email cfgAll 2,
       VerifyOp.confirm Channel.email ("1002") 3]) Channel.email cfgAll 7 =
      (SendReply.emailMissing, none) ∧
    confirmCore (runOps (newCustomer d10 ("RC10-CCCCCC") 10)
      [VerifyOp.send Channel.phone cfgAll 0,
       VerifyOp.confirm Channel.phone ("1000") 1,
       VerifyOp.send Channel.email cfgAll 2,
       VerifyOp.confirm Channel.email ("1002") 3]) Channel.email ("1002") 9 =
      (ConfirmReply.invalidCode, none) :=
  have h := no_email_never_verified d10 ("RC10-CCCCCC") 10 (by decide)
    [VerifyOp.send Channel.phone cfgAll 0,
     VerifyOp.confirm Channel.phone ("1000") 1,
     VerifyOp.send Channel.email cfgAll 2,
     VerifyOp.confirm Channel.email ("1002") 3]
  ⟨h.1, h.2.1, (h.2.2.1 cfgAll 7).1, (h.2.2.2 ("1002") 9).1⟩

end SushiPromo
